import Mathlib

/-!
Shallow embedding of the `dict` repository (NavyD/dict), a Rust CLI that
drives two authenticated web services (youdao dictionary, maimemo notepads)
through a configuration-driven HTTP session engine.

Embedding conventions:
* Rust `Result<T, String>` becomes `Except String T`.
* Code that can panic (`unwrap`, `todo!`, checked arithmetic, out-of-range
  `Vec::drain`) is modelled with the three-valued outcome type `POutcome`,
  whose `panic` constructor records an abort of the whole program, as opposed
  to `err`, a typed error returned to the caller.  Checked-arithmetic
  semantics (overflow panics) follows a debug build, which is what the
  repository's own tests exercise.
* The HTTP transport, the external `cookie` / `cookie_store` crate entry
  points (`Cookie::parse`, `CookieStore::insert_raw`, domain/path matching
  of `get_request_cookies`) and stdin are oracles: explicit function
  arguments, so every definition stays executable on concrete instances.
* Rust `HashMap`s that the code only iterates or searches are modelled as
  association lists (the source maps have unique keys, and no claim depends
  on iteration order).
* Header values are byte strings (`List Nat`, each entry `< 256`) where the
  byte-level behaviour matters (`HeaderValue::to_str`), and Lean `String`s
  elsewhere.
-/

namespace DictModel

/-- Outcome of running a piece of Rust code: a normal value, a typed error
returned to the caller (`Result::Err`), or a process abort (`panic!`,
`unwrap` on `None`/`Err`, `todo!`, arithmetic overflow). -/
inductive POutcome (α : Type) where
  | ok (a : α)
  | err (e : String)
  | panic (msg : String)
  deriving Repr, DecidableEq

/-- Rust `str::contains` for string patterns: `pat` occurs as a contiguous
substring of `s`. -/
def containsSub (s pat : String) : Bool :=
  (List.range (s.data.length + 1)).any (fun i => pat.data.isPrefixOf (s.data.drop i))

/-- ASCII lowercasing of one character. -/
def asciiLowerChar (c : Char) : Char :=
  if 65 ≤ c.toNat && c.toNat ≤ 90 then Char.ofNat (c.toNat + 32) else c

/-- ASCII lowercasing of a string (`str::to_lowercase`; every string the
program lowercases is ASCII). -/
def asciiLower (s : String) : String :=
  String.mk (s.data.map asciiLowerChar)

/-- ASCII-case-insensitive string equality, Rust `str::eq_ignore_ascii_case`. -/
def eqIgnoreAsciiCase (a b : String) : Bool :=
  asciiLower a == asciiLower b

/-- Join strings with a separator (the source builds `name=value; ` with a
trailing delimiter and then drains the final `; `, which is the same). -/
def joinSep (sep : String) : List String → String
  | [] => ""
  | [s] => s
  | s :: rest => s ++ sep ++ joinSep sep rest

/-! ## YoudaoApp::filter_offset (src/main.rs lines 377-390)

```rust
fn filter_offset<T>(words: &mut Vec<&T>, offset: isize) {
    if offset > 0 {
        let mut count = words.len() - offset as usize;
        while count > 0 { count -= 1; words.pop(); }
    } else if offset < 0 {
        let start = (words.len() as isize + offset) as usize;
        words.drain(0..start);
    }
}
```

`words.len() - offset as usize` is checked `usize` subtraction: it panics
when `offset as usize > words.len()`.  In the negative branch the cast
`as usize` wraps a negative `isize` to a huge `usize`, and
`Vec::drain(0..start)` then panics because the range end exceeds the length.
-/

/-- The pop loop of `filter_offset`: `n` times `words.pop()` (drop the last
element). -/
def popN {α : Type} : List α → Nat → List α
  | ws, 0 => ws
  | ws, n + 1 => popN ws.dropLast n

/-- `YoudaoApp::filter_offset`.  `.ok` is the final state of the vector;
`.panic` records the two abort paths (checked subtraction in the positive
branch, out-of-range `drain` in the negative branch). -/
def filter_offset {α : Type} (words : List α) (offset : Int) : POutcome (List α) :=
  if 0 < offset then
    if offset.toNat ≤ words.length then
      POutcome.ok (popN words (words.length - offset.toNat))
    else
      POutcome.panic "attempt to subtract with overflow"
  else if offset < 0 then
    let start : Int := (words.length : Int) + offset
    if start < 0 then
      POutcome.panic "end drain index should be less than or equal to len"
    else
      POutcome.ok (words.drop start.toNat)
  else
    POutcome.ok words

theorem popN_eq_take {α : Type} : ∀ (n : Nat) (ws : List α), popN ws n = ws.take (ws.length - n) := by
  intro n
  induction n with
  | zero => intro ws; simp [popN]
  | succ n ih =>
    intro ws
    have hlen : ws.dropLast.length = ws.length - 1 := List.length_dropLast ws
    calc popN ws (n + 1) = popN ws.dropLast n := rfl
      _ = ws.dropLast.take (ws.dropLast.length - n) := ih ws.dropLast
      _ = (ws.take (ws.length - 1)).take (ws.length - 1 - n) := by
            rw [hlen, List.dropLast_eq_take]
      _ = ws.take (ws.length - (n + 1)) := by
            rw [List.take_take]
            congr 1
            omega

/-- C9: for `0 < offset` with `offset > N` the positive branch of
`filter_offset` panics on the checked subtraction `words.len() - offset`;
for `offset < 0` with `|offset| > N` the wrapped cast `(len + offset) as
usize` produces an out-of-range start and `Vec::drain` panics.  In both
cases the function aborts instead of returning a list or an error, so the
spec's offset-filter property holds only under `|offset| ≤ N`. -/
theorem filter_offset_out_of_range {α : Type} (words : List α) (offset : Int) :
    (0 < offset → words.length < offset.toNat →
      filter_offset words offset = POutcome.panic "attempt to subtract with overflow")
    ∧ (offset < 0 → words.length < offset.natAbs →
      filter_offset words offset = POutcome.panic "end drain index should be less than or equal to len") := by
  constructor
  · intro hpos hlen
    simp only [filter_offset, if_pos hpos]
    rw [if_neg (by omega)]
  · intro hneg hlen
    have hnp : ¬ 0 < offset := by omega
    simp only [filter_offset, if_neg hnp, if_pos hneg]
    rw [if_pos (by omega)]

/-- Witness for C9 at concrete inputs: a one-element list with offset `2`
panics in the positive branch, and with offset `-2` panics in the negative
branch. -/
theorem filter_offset_out_of_range_witness :
    filter_offset [(0 : Nat)] 2 = POutcome.panic "attempt to subtract with overflow"
    ∧ filter_offset [(0 : Nat)] (-2) = POutcome.panic "end drain index should be less than or equal to len" :=
  ⟨(filter_offset_out_of_range [(0 : Nat)] 2).1 (by decide) (by decide),
   (filter_offset_out_of_range [(0 : Nat)] (-2)).2 (by decide) (by decide)⟩

/-- C8 counterexample: on the one-element list `[0]` with positive offset
`2`, `filter_offset` does not return the first two items (there are none to
return): it panics on the checked subtraction, refuting the claim as stated
for offsets larger than the list length. -/
theorem filter_offset_claim_counterexample :
    filter_offset [(0 : Nat)] 2 = POutcome.panic "attempt to subtract with overflow" := by
  decide

/-- C8 (amended): under the precondition `|offset| ≤ N`, `filter_offset`
with a positive offset `k` keeps exactly the first `k` items in order, with
a negative offset `-k` keeps exactly the last `k` items in order, and with
offset `0` returns the list unchanged. -/
theorem filter_offset_spec {α : Type} (words : List α) (offset : Int) :
    (0 < offset → offset.toNat ≤ words.length →
      filter_offset words offset = POutcome.ok (words.take offset.toNat))
    ∧ (offset < 0 → offset.natAbs ≤ words.length →
      filter_offset words offset = POutcome.ok (words.drop (words.length - offset.natAbs)))
    ∧ (offset = 0 → filter_offset words offset = POutcome.ok words) := by
  refine ⟨?_, ?_, ?_⟩
  · intro hpos hle
    simp only [filter_offset, if_pos hpos, if_pos hle, popN_eq_take]
    congr 2
    omega
  · intro hneg hle
    have hnp : ¬ 0 < offset := by omega
    simp only [filter_offset, if_neg hnp, if_pos hneg]
    rw [if_neg (by omega)]
    congr 2
    omega
  · intro h0
    subst h0
    simp [filter_offset]

/-- Witness for C8 (amended) at the concrete list `[1,2,3]`: offset `2`
keeps `[1,2]`, offset `-2` keeps `[2,3]`, offset `0` keeps everything. -/
theorem filter_offset_spec_witness :
    filter_offset [1, 2, 3] (2 : Int) = POutcome.ok [(1 : Nat), 2]
    ∧ filter_offset [1, 2, 3] (-2 : Int) = POutcome.ok [(2 : Nat), 3]
    ∧ filter_offset [1, 2, 3] (0 : Int) = POutcome.ok [(1 : Nat), 2, 3] :=
  ⟨(filter_offset_spec [1, 2, 3] 2).1 (by decide) (by decide),
   (filter_offset_spec [1, 2, 3] (-2)).2.1 (by decide) (by decide),
   (filter_offset_spec [1, 2, 3] 0).2.2 (by decide)⟩

/-! ## Cookie jar and Set-Cookie ingestion (src/client/mod.rs)

The `cookie_store` crate is external: a cookie is (domain, path, name,
value), uniqueness key (domain, path, name), and `CookieStore::get` is exact
lookup on that key.  The crate's parsing (`cookie::Cookie::parse`), insertion
(`insert_raw`) and per-URL applicability matching (`get_request_cookies`) are
modelled as oracle functions. -/

structure MCookie where
  domain : String
  path : String
  name : String
  value : String
  deriving Repr, DecidableEq

/-- The in-memory cookie jar.  The `cookie_store` crate's domain/path/expiry
matching predicate used by `get_request_cookies` is not part of the stored
data; it is passed as an oracle to the functions that need it. -/
structure CookieStore where
  cookies : List MCookie
  deriving Repr, DecidableEq

/-- `CookieStore::get(domain, path, name)`: exact lookup used by the
login-state predicates. -/
def storeGet (store : CookieStore) (domain path name : String) : Option MCookie :=
  store.cookies.find? (fun c => c.domain == domain && c.path == path && c.name == name)

/-- `http::HeaderValue::to_str` succeeds iff every byte of the value is
visible ASCII (32..126) or horizontal tab. -/
def headerValueToStrOk (bytes : List Nat) : Bool :=
  bytes.all (fun b => (32 ≤ b && b < 127) || b == 9)

/-- Decode a visible-ASCII byte string into a Lean string. -/
def decodeAscii (bytes : List Nat) : String :=
  String.mk (bytes.map Char.ofNat)

/-- `update_set_cookies` (src/client/mod.rs lines 119-137):

```rust
let set_cookies = resp.headers().iter()
    .filter(|(name, _)| *name == reqwest::header::SET_COOKIE)
    .map(|(_, v)| v.to_str().unwrap())
    .collect::<Vec<_>>();
for cookie_str in set_cookies {
    if let Err(e) = cookie::Cookie::parse(cookie_str).map(|raw_cookie| {
        if let Err(e) = cookie_store.insert_raw(&raw_cookie, resp.url()) { ... log ... }
    }) { ... log ... }
}
```

The `collect` drives `v.to_str().unwrap()` over every Set-Cookie value
before the insertion loop starts, so one value with a non-visible-ASCII
byte panics the process before anything is parsed.  Once all values
convert, a parse failure or an `insert_raw` failure is logged and skipped
and processing continues with the next value.  `parse` models
`cookie::Cookie::parse`, `insertRaw` models `CookieStore::insert_raw`
against the response URL. -/
def update_set_cookies
    (parse : String → Except String MCookie)
    (insertRaw : List MCookie → MCookie → String → Except String (List MCookie))
    (store : CookieStore) (respHeaders : List (String × List Nat)) (respUrl : String) :
    POutcome CookieStore :=
  let vals := (respHeaders.filter (fun kv => kv.1 == "set-cookie")).map (fun kv => kv.2)
  if vals.all headerValueToStrOk then
    let step : List MCookie → List Nat → List MCookie := fun cs v =>
      match parse (decodeAscii v) with
      | Except.error _ => cs
      | Except.ok rc =>
        match insertRaw cs rc respUrl with
        | Except.error _ => cs
        | Except.ok cs' => cs'
    POutcome.ok { store with cookies := vals.foldl step store.cookies }
  else
    POutcome.panic "called Result::unwrap on an Err value: ToStrError"

/-- Demonstration oracle for `cookie::Cookie::parse`: accepts the single
well-formed value `a=b` used by the concrete runs, rejects anything else. -/
def demoParse : String → Except String MCookie := fun s =>
  if s == "a=b" then
    Except.ok { domain := "example.com", path := "/", name := "a", value := "b" }
  else
    Except.error "parse error"

/-- Demonstration oracle for `CookieStore::insert_raw`: always inserts. -/
def demoInsert : List MCookie → MCookie → String → Except String (List MCookie) :=
  fun cs c _ => Except.ok (cs ++ [c])

/-- A fresh, empty cookie jar. -/
def emptyStore : CookieStore :=
  { cookies := [] }

/-- C7: evaluating `update_set_cookies` at the failing input.  A response
whose first Set-Cookie value contains the opaque byte `0xFF` panics the
whole ingestion on `to_str().unwrap()` — the second, well-formed value
`a=b` is never processed and the caller is taken down — whereas the
well-formed value alone is parsed and inserted.  This contradicts the
claim (and the function's own doc comment) that a malformed value is
logged and skipped without aborting the remaining headers. -/
theorem update_set_cookies_panics_on_opaque_byte :
    update_set_cookies demoParse demoInsert emptyStore
        [("set-cookie", [255]), ("set-cookie", [97, 61, 98])] "https://example.com/"
      = POutcome.panic "called Result::unwrap on an Err value: ToStrError"
    ∧ update_set_cookies demoParse demoInsert emptyStore
        [("set-cookie", [97, 61, 98])] "https://example.com/"
      = POutcome.ok { emptyStore with
          cookies := [{ domain := "example.com", path := "/", name := "a", value := "b" }] } := by
  refine ⟨by decide, by decide⟩

/-! ## Login-state predicates and login response classification

`YoudaoClient::login` (src/client/youdao_client.rs lines 101-124) first
ingests the response cookies, then fails with a dedicated blacklist error
when the response carried no Set-Cookie header at all, then fails with a
different error when Set-Cookie was present but the session-marker cookies
are still missing.  `MaimemoClient::login` (src/client/maimemo_client.rs
lines 126-138) only re-checks `has_logged` after ingestion and returns one
fixed error in every failure case.  Neither function retries: both return
the error to the caller. -/

/-- `YoudaoClient::has_logged` (youdao_client.rs lines 199-205): both
session-marker cookies must be present for domain `youdao.com`, path `/`. -/
def youdao_has_logged (store : CookieStore) : Bool :=
  (storeGet store "youdao.com" "/" "OUTFOX_SEARCH_USER_ID").isSome
    && (storeGet store "youdao.com" "/" "DICT_PERS").isSome

/-- `MaimemoClient::has_logged` (maimemo_client.rs lines 99-107): the
`userToken` cookie for `www.maimemo.com`, path `/`, must be present. -/
def maimemo_has_logged (store : CookieStore) : Bool :=
  (storeGet store "www.maimemo.com" "/" "userToken").isSome

/-- Tail of `YoudaoClient::login` after the login response arrived:
ingest Set-Cookie headers, then classify (youdao_client.rs lines 101-124). -/
def youdao_login_handle_resp
    (parse : String → Except String MCookie)
    (insertRaw : List MCookie → MCookie → String → Except String (List MCookie))
    (store : CookieStore) (respHeaders : List (String × List Nat)) (respUrl : String) :
    POutcome Unit :=
  match update_set_cookies parse insertRaw store respHeaders respUrl with
  | POutcome.panic m => POutcome.panic m
  | POutcome.err e => POutcome.err e
  | POutcome.ok store1 =>
    if (respHeaders.find? (fun kv => eqIgnoreAsciiCase kv.1 "set-cookie")).isNone then
      POutcome.err "Frequent login may have been added to youdao blacklist, not found any set-cookie in login resp"
    else if !(youdao_has_logged store1) then
      POutcome.err "login failed. not found login cookies"
    else
      POutcome.ok ()

/-- Tail of `MaimemoClient::login` after the login response arrived:
ingest Set-Cookie headers, then a single `has_logged` re-check
(maimemo_client.rs lines 126-138).  The response headers are otherwise
not inspected. -/
def maimemo_login_handle_resp
    (parse : String → Except String MCookie)
    (insertRaw : List MCookie → MCookie → String → Except String (List MCookie))
    (store : CookieStore) (respHeaders : List (String × List Nat)) (respUrl : String) :
    POutcome Unit :=
  match update_set_cookies parse insertRaw store respHeaders respUrl with
  | POutcome.panic m => POutcome.panic m
  | POutcome.err e => POutcome.err e
  | POutcome.ok store1 =>
    if !(maimemo_has_logged store1) then
      POutcome.err "login failed. not found cookie store"
    else
      POutcome.ok ()

/-- C6 counterexample: the claim quantifies over every Authenticated
Client, but `MaimemoClient::login` reports the identical error whether the
login response carried no Set-Cookie header at all (first run) or carried
a Set-Cookie header that lacks the required `userToken` session marker
(second run): the error does not distinguish the two cases. -/
theorem maimemo_login_error_no_distinction :
    maimemo_login_handle_resp demoParse demoInsert emptyStore [] "https://www.maimemo.com/"
      = POutcome.err "login failed. not found cookie store"
    ∧ maimemo_login_handle_resp demoParse demoInsert emptyStore
        [("set-cookie", [97, 61, 98])] "https://www.maimemo.com/"
      = POutcome.err "login failed. not found cookie store" := by
  refine ⟨by decide, by decide⟩

/-- C6 (amended): for the YoudaoClient, when `has_logged` is still false
after ingesting the login response's cookies, `login` fails with an error
that distinguishes the no-Set-Cookie-at-all case (blacklist message) from
the Set-Cookie-present-but-marker-missing case (login-cookie message), and
the two messages differ; the MaimemoClient's `login` instead fails with one
fixed error message in every such case.  No branch retries. -/
theorem login_failure_classification
    (parse : String → Except String MCookie)
    (insertRaw : List MCookie → MCookie → String → Except String (List MCookie))
    (store : CookieStore) (respHeaders : List (String × List Nat)) (respUrl : String)
    (store1 : CookieStore)
    (hingest : update_set_cookies parse insertRaw store respHeaders respUrl
      = POutcome.ok store1) :
    ((respHeaders.find? (fun kv => eqIgnoreAsciiCase kv.1 "set-cookie")).isNone →
      youdao_login_handle_resp parse insertRaw store respHeaders respUrl
        = POutcome.err "Frequent login may have been added to youdao blacklist, not found any set-cookie in login resp")
    ∧ ((respHeaders.find? (fun kv => eqIgnoreAsciiCase kv.1 "set-cookie")).isSome →
        youdao_has_logged store1 = false →
        youdao_login_handle_resp parse insertRaw store respHeaders respUrl
          = POutcome.err "login failed. not found login cookies")
    ∧ ("Frequent login may have been added to youdao blacklist, not found any set-cookie in login resp"
        ≠ "login failed. not found login cookies")
    ∧ (maimemo_has_logged store1 = false →
        maimemo_login_handle_resp parse insertRaw store respHeaders respUrl
          = POutcome.err "login failed. not found cookie store") := by
  refine ⟨?_, ?_, by decide, ?_⟩
  · intro hnone
    simp [youdao_login_handle_resp, hingest, hnone]
  · intro hsome hmarker
    simp only [youdao_login_handle_resp, hingest]
    rw [if_neg (by simp [Option.isNone_iff_eq_none] at hsome ⊢; exact hsome)]
    simp [hmarker]
  · intro hmarker
    simp [maimemo_login_handle_resp, hingest, hmarker]

/-- Witness for C6 (amended) at concrete inputs: an empty jar, a response
with no Set-Cookie header (for the first branch) — the other hypotheses
are discharged at the same instantiation. -/
theorem login_failure_classification_witness :
    youdao_login_handle_resp demoParse demoInsert emptyStore [] "https://youdao.com/"
      = POutcome.err "Frequent login may have been added to youdao blacklist, not found any set-cookie in login resp"
    ∧ maimemo_login_handle_resp demoParse demoInsert emptyStore [] "https://youdao.com/"
      = POutcome.err "login failed. not found cookie store" :=
  ⟨(login_failure_classification demoParse demoInsert emptyStore [] "https://youdao.com/"
      emptyStore (by decide)).1 (by decide),
   (login_failure_classification demoParse demoInsert emptyStore [] "https://youdao.com/"
      emptyStore (by decide)).2.2.2 (by decide)⟩

/-! ## Request templates and the Session Dispatcher (src/client/mod.rs)

`send_request` (lines 208-269) resolves a named `RequestConfig` from the
`AppConfig`, rewrites the URL, parses the method, fills headers and
cookies, encodes the optional body by the template's Content-Type header,
hands exactly one request to the transport (a `reqwest::Client` built with
redirects and automatic cookies disabled), and classifies the response
status.  The transport is an oracle; the returned trace lists the requests
actually handed to it, so an empty trace is the absence of a network call.
`AppConfig` mirrors the configuration type consumed by `send_request`
(the getters used are `get_requests`, `get_username`, `get_password`,
`get_cookie_path`, as in `Config` of src/config.rs). -/

structure RequestConfig where
  url : String
  method : String
  headers : Option (List (String × String))
  form : Option (List (String × String))
  deriving Repr, DecidableEq

structure AppConfig where
  username : String
  password : String
  cookiePath : Option String
  requests : Option (List (String × RequestConfig))
  deriving Repr, DecidableEq

/-- `get_request_config` (client/mod.rs lines 169-175): look the template up
by name in the loaded configuration; absent is `none`, not an error. -/
def get_request_config (config : AppConfig) (reqName : String) : Option RequestConfig :=
  config.requests.bind (fun reqs => (reqs.find? (fun kv => kv.1 == reqName)).map (fun kv => kv.2))

/-- Characters accepted by `http::Method::from_bytes` for extension
methods: token characters (alphanumerics and the RFC 7230 specials). -/
def isMethodChar (c : Char) : Bool :=
  c.isAlphanum || "!#$%&'*+-.^_`|~".data.contains c

/-- `Method::from_bytes(req_config.get_method().as_bytes())`, with the
error debug-formatted by the source into a string. -/
def parseMethod (s : String) : Except String String :=
  if s.length > 0 && s.data.all isMethodChar then Except.ok s
  else Except.error "InvalidMethod"

/-- Characters accepted by `http::HeaderName::from_lowercase` (the source
lowercases the configured key first, so uppercase never reaches it). -/
def isHeaderNameChar (c : Char) : Bool :=
  (c.isLower || c.isDigit) || "!#$%&'*+-.^_`|~".data.contains c

def validHeaderName (s : String) : Bool :=
  s.length > 0 && s.data.all isHeaderNameChar

/-- `http::HeaderValue::from_str` accepts visible ASCII and tab. -/
def isHeaderValueChar (c : Char) : Bool :=
  (32 ≤ c.toNat && c.toNat < 127) || c.toNat == 9

def validHeaderValue (s : String) : Bool :=
  s.data.all isHeaderValueChar

/-- `fill_headers` (client/mod.rs lines 142-166): lowercase each configured
key; a key or value the `http` crate rejects is skipped with a warning,
never an error.  (The source map has unique keys, so `HeaderMap::insert`
replacement never fires; the association list keeps the surviving pairs.) -/
def fill_headers (headers : List (String × String)) : List (String × String) :=
  headers.filterMap (fun kv =>
    let key := asciiLower kv.1
    if validHeaderName key then
      if validHeaderValue kv.2 then some (key, kv.2) else none
    else none)

/-- `fill_request_cookies` (client/mod.rs lines 87-116): join the jar's
cookies applicable to the URL as `name=value; ...`; when the joined string
is empty the Cookie header is omitted entirely; a joined string the header
type rejects is skipped with a warning.  `applies` is the `cookie_store`
crate's per-URL matching used by `get_request_cookies`
(`reqwest::Url::parse(url).unwrap()` is abstracted: configured URLs are
assumed parseable). -/
def fill_request_cookies (applies : MCookie → String → Bool) (store : CookieStore)
    (reqUrl : String) : Option String :=
  let cs := store.cookies.filter (fun c => applies c reqUrl)
  let cookieStr := joinSep "; " (cs.map (fun c => c.name ++ "=" ++ c.value))
  if cookieStr == "" then none
  else if validHeaderValue cookieStr then some cookieStr else none

/-- A request body of some serde-serializable Rust type `T`, modelled by
the two encodings serde would produce for the concrete value:
`serde_urlencoded::to_string` and `serde_json::to_vec`, each possibly
failing. -/
structure Body where
  formEncoding : Except String String
  jsonEncoding : Except String (List Nat)
  deriving Repr

inductive BodyPayload where
  | form (s : String)
  | json (bytes : List Nat)
  deriving Repr, DecidableEq

/-- `fill_body` (client/mod.rs lines 59-84): substring-match the template's
Content-Type value; `application/x-www-form-urlencoded` is checked first,
then `application/json`; any other content type hits `todo!`, which is a
process panic (`not yet implemented: ...`), not a returned error. -/
def fill_body (contentType : String) (body : Body) : POutcome BodyPayload :=
  if containsSub contentType "application/x-www-form-urlencoded" then
    match body.formEncoding with
    | Except.ok s => POutcome.ok (BodyPayload.form s)
    | Except.error e => POutcome.err e
  else if containsSub contentType "application/json" then
    match body.jsonEncoding with
    | Except.ok v => POutcome.ok (BodyPayload.json v)
    | Except.error e => POutcome.err e
  else
    POutcome.panic ("not yet implemented: unsupported content type: " ++ contentType)

/-- The fully assembled outbound request as handed to the transport. -/
structure SentRequest where
  url : String
  method : String
  headers : List (String × String)
  cookie : Option String
  body : Option BodyPayload
  deriving Repr, DecidableEq

/-- An HTTP response: status code plus raw headers (values as bytes).
The error branch of the dispatcher never carries the response or its body,
only the formatted status line. -/
structure HttpResponse where
  status : Nat
  headers : List (String × List Nat)
  deriving Repr, DecidableEq

/-- The case-insensitive Content-Type lookup of `send_request`
(client/mod.rs lines 240-253). -/
def findContentType (headers : List (String × String)) : Option String :=
  (headers.find? (fun kv => eqIgnoreAsciiCase kv.1 "content-type")).map (fun kv => kv.2)

/-- Response-status classification at the end of `send_request`
(client/mod.rs lines 261-268): 200 and 302 are success and the response is
passed back; any other status becomes an error string carrying the status
code (the `reqwest::StatusCode` display's reason phrase is omitted here). -/
def classify_response (resp : HttpResponse) : Except String HttpResponse :=
  if resp.status == 200 || resp.status == 302 then Except.ok resp
  else Except.error ("Response code error: " ++ toString resp.status)

/-- The request `send_request` assembles once template, URL, method,
headers, cookies and payload are settled. -/
def build_request (applies : MCookie → String → Bool) (store : CookieStore)
    (cfg : RequestConfig) (url : String) (payload : Option BodyPayload) : SentRequest :=
  { url := url
    method := cfg.method
    headers := fill_headers (cfg.headers.getD [])
    cookie := fill_request_cookies applies store url
    body := payload }

/-- `send_request` (client/mod.rs lines 208-269).  Returns the outcome and
the trace of requests handed to the transport (at most one; empty means no
network call was issued). -/
def send_request
    (transport : SentRequest → Except String HttpResponse)
    (applies : MCookie → String → Bool)
    (config : AppConfig) (store : CookieStore) (reqName : String)
    (urlHandler : String → String) (body : Option Body) :
    POutcome HttpResponse × List SentRequest :=
  match get_request_config config reqName with
  | none => (POutcome.err ("not found req config with req_name: " ++ reqName), [])
  | some cfg =>
    let url := urlHandler cfg.url
    match parseMethod cfg.method with
    | Except.error e => (POutcome.err e, [])
    | Except.ok _ =>
      match cfg.headers with
      | none => (POutcome.err ("not found any headers in req url: " ++ url), [])
      | some hs =>
        let payloadOut : POutcome (Option BodyPayload) :=
          match body with
          | none => POutcome.ok none
          | some b =>
            match findContentType hs with
            | none => POutcome.err "not found content-type in request headers"
            | some ct =>
              match fill_body ct b with
              | POutcome.ok p => POutcome.ok (some p)
              | POutcome.err e => POutcome.err e
              | POutcome.panic m => POutcome.panic m
        match payloadOut with
        | POutcome.panic m => (POutcome.panic m, [])
        | POutcome.err e => (POutcome.err e, [])
        | POutcome.ok payload =>
          let req := build_request applies store cfg url payload
          match transport req with
          | Except.error e => (POutcome.err e, [req])
          | Except.ok resp =>
            match classify_response resp with
            | Except.ok r => (POutcome.ok r, [req])
            | Except.error e => (POutcome.err e, [req])

/-- `send_request_nobody` (client/mod.rs lines 177-193). -/
def send_request_nobody
    (transport : SentRequest → Except String HttpResponse)
    (applies : MCookie → String → Bool)
    (config : AppConfig) (store : CookieStore) (reqName : String)
    (urlHandler : String → String) :
    POutcome HttpResponse × List SentRequest :=
  send_request transport applies config store reqName urlHandler none

/-- C1: for every dispatched request (template resolved, method parsed,
headers present, no body) whose transport yields a response, `send_request`
returns the response as success iff its status is 200 or 302; for any other
status it returns the error string carrying that status code paired with
the single dispatched request, and the response (in particular its body) is
not part of the returned value. -/
theorem send_request_status_classification
    (transport : SentRequest → Except String HttpResponse)
    (applies : MCookie → String → Bool)
    (config : AppConfig) (store : CookieStore) (reqName : String)
    (urlHandler : String → String)
    (cfg : RequestConfig) (hs : List (String × String)) (resp : HttpResponse)
    (hcfg : get_request_config config reqName = some cfg)
    (hm : parseMethod cfg.method = Except.ok cfg.method)
    (hh : cfg.headers = some hs)
    (ht : transport (build_request applies store cfg (urlHandler cfg.url) none)
      = Except.ok resp) :
    ((send_request transport applies config store reqName urlHandler none).1
        = POutcome.ok resp ↔ (resp.status = 200 ∨ resp.status = 302))
    ∧ (resp.status ≠ 200 → resp.status ≠ 302 →
        send_request transport applies config store reqName urlHandler none
          = (POutcome.err ("Response code error: " ++ toString resp.status),
             [build_request applies store cfg (urlHandler cfg.url) none])) := by
  have hrun : send_request transport applies config store reqName urlHandler none
      = (match classify_response resp with
         | Except.ok r =>
            (POutcome.ok r, [build_request applies store cfg (urlHandler cfg.url) none])
         | Except.error e =>
            (POutcome.err e, [build_request applies store cfg (urlHandler cfg.url) none])) := by
    simp only [send_request, hcfg, hm, hh, ht]
  rcases Decidable.em (resp.status = 200 ∨ resp.status = 302) with h2 | h2
  · have hcls : classify_response resp = Except.ok resp := by
      unfold classify_response
      rw [if_pos]
      simpa only [Bool.or_eq_true, beq_iff_eq] using h2
    rw [hrun, hcls]
    exact ⟨⟨fun _ => h2, fun _ => rfl⟩, fun hn1 hn2 => absurd h2 (by tauto)⟩
  · have hcls : classify_response resp
        = Except.error ("Response code error: " ++ toString resp.status) := by
      unfold classify_response
      rw [if_neg]
      simpa only [Bool.or_eq_true, beq_iff_eq] using h2
    rw [hrun, hcls]
    refine ⟨⟨fun h => absurd h (by simp), fun h => absurd h h2⟩, fun _ _ => rfl⟩

/-- Demonstration template and configuration for the dispatcher theorems. -/
def demoGetCfg : RequestConfig :=
  { url := "https://example.com/api"
    method := "GET"
    headers := some [("accept", "application/json")]
    form := none }

def demoPlainCfg : RequestConfig :=
  { url := "https://example.com/api"
    method := "POST"
    headers := some [("content-type", "text/plain")]
    form := none }

def demoFormCfg : RequestConfig :=
  { url := "https://example.com/api"
    method := "POST"
    headers := some [("content-type", "application/x-www-form-urlencoded")]
    form := none }

def demoJsonCfg : RequestConfig :=
  { url := "https://example.com/api"
    method := "POST"
    headers := some [("content-type", "application/json; charset=utf-8")]
    form := none }

def demoAppConfig : AppConfig :=
  { username := "u"
    password := "p"
    cookiePath := none
    requests := some
      [("get", demoGetCfg), ("plain", demoPlainCfg), ("form", demoFormCfg), ("json", demoJsonCfg)] }

/-- A transport that always answers 404 with no headers. -/
def demoTransport404 : SentRequest → Except String HttpResponse :=
  fun _ => Except.ok { status := 404, headers := [] }

/-- A transport that always answers 200 with no headers. -/
def demoTransport200 : SentRequest → Except String HttpResponse :=
  fun _ => Except.ok { status := 200, headers := [] }

/-- Everything-applies cookie matching for the demonstration runs. -/
def demoApplies : MCookie → String → Bool :=
  fun _ _ => true

/-- Witness for C1: dispatching the demo `get` template against a transport
answering 404 yields the protocol error carrying 404 and a single sent
request. -/
theorem send_request_status_classification_witness :
    send_request demoTransport404 demoApplies demoAppConfig emptyStore "get"
        (fun u => u) none
      = (POutcome.err ("Response code error: " ++ toString (404 : Nat)),
         [build_request demoApplies emptyStore demoGetCfg "https://example.com/api" none]) :=
  (send_request_status_classification demoTransport404 demoApplies demoAppConfig emptyStore
      "get" (fun u => u) demoGetCfg [("accept", "application/json")]
      { status := 404, headers := [] }
      (by decide) (by rfl) (by decide) (by rfl)).2 (by decide) (by decide)

/-- C3: for a template name absent from the loaded store, `send_request`
returns the configuration error naming the request and hands nothing to
the transport (empty trace = no network call). -/
theorem send_request_unknown_template
    (transport : SentRequest → Except String HttpResponse)
    (applies : MCookie → String → Bool)
    (config : AppConfig) (store : CookieStore) (reqName : String)
    (urlHandler : String → String) (body : Option Body)
    (habsent : get_request_config config reqName = none) :
    send_request transport applies config store reqName urlHandler body
      = (POutcome.err ("not found req config with req_name: " ++ reqName), []) := by
  simp only [send_request, habsent]

/-- Witness for C3: the demo configuration has no template named
`missing`, so the dispatch fails with the configuration error and issues no
network call. -/
theorem send_request_unknown_template_witness :
    send_request demoTransport200 demoApplies demoAppConfig emptyStore "missing"
        (fun u => u) none
      = (POutcome.err ("not found req config with req_name: " ++ "missing"), []) :=
  send_request_unknown_template demoTransport200 demoApplies demoAppConfig emptyStore
    "missing" (fun u => u) none (by decide)

/-- Demonstration body whose serde encodings both succeed. -/
def demoBody : Body :=
  { formEncoding := Except.ok "k=v", jsonEncoding := Except.ok [123, 125] }

/-- C4 counterexample: dispatching the demo template whose Content-Type is
`text/plain` with a body does not return an unsupported-operation error:
it panics through `todo!` before any request is sent, refuting the
claim's "not a crash". -/
theorem send_request_unsupported_content_type_counterexample :
    send_request demoTransport200 demoApplies demoAppConfig emptyStore "plain"
        (fun u => u) (some demoBody)
      = (POutcome.panic "not yet implemented: unsupported content type: text/plain", []) := by
  decide

/-- C4 (amended): with a supplied body, the dispatcher selects the encoding
by substring-matching the template's Content-Type header value —
a value containing `application/x-www-form-urlencoded` form-encodes the
body into the dispatched request, a value containing `application/json`
(and not the form type, which is checked first) JSON-encodes it, and for
every other value the dispatcher panics via `todo!` with an explicit
unsupported-content-type message and dispatches nothing; it is neither a
silent no-op nor a returned error. -/
theorem send_request_body_encoding
    (transport : SentRequest → Except String HttpResponse)
    (applies : MCookie → String → Bool)
    (config : AppConfig) (store : CookieStore) (reqName : String)
    (urlHandler : String → String) (b : Body) (fs : String) (js : List Nat)
    (cfg : RequestConfig) (hs : List (String × String)) (ct : String) (resp : HttpResponse)
    (hcfg : get_request_config config reqName = some cfg)
    (hm : parseMethod cfg.method = Except.ok cfg.method)
    (hh : cfg.headers = some hs)
    (hct : findContentType hs = some ct)
    (hform : b.formEncoding = Except.ok fs)
    (hjson : b.jsonEncoding = Except.ok js)
    (htr : ∀ req, transport req = Except.ok resp) :
    (containsSub ct "application/x-www-form-urlencoded" = true →
      (send_request transport applies config store reqName urlHandler (some b)).2
        = [build_request applies store cfg (urlHandler cfg.url)
            (some (BodyPayload.form fs))])
    ∧ (containsSub ct "application/x-www-form-urlencoded" = false →
       containsSub ct "application/json" = true →
      (send_request transport applies config store reqName urlHandler (some b)).2
        = [build_request applies store cfg (urlHandler cfg.url)
            (some (BodyPayload.json js))])
    ∧ (containsSub ct "application/x-www-form-urlencoded" = false →
       containsSub ct "application/json" = false →
      send_request transport applies config store reqName urlHandler (some b)
        = (POutcome.panic ("not yet implemented: unsupported content type: " ++ ct), [])) := by
  refine ⟨?_, ?_, ?_⟩
  · intro hc1
    simp only [send_request, hcfg, hm, hh, hct, fill_body, hc1, if_true, hform,
      htr]
    cases classify_response resp <;> rfl
  · intro hc1 hc2
    simp only [send_request, hcfg, hm, hh, hct, fill_body, hc1, hc2, if_true,
      Bool.false_eq_true, if_false, hjson, htr]
    cases classify_response resp <;> rfl
  · intro hc1 hc2
    simp only [send_request, hcfg, hm, hh, hct, fill_body, hc1, hc2,
      Bool.false_eq_true, if_false]

/-- Witness for C4 (amended): the three branches at the demo templates —
form Content-Type, json Content-Type, and the panicking `text/plain`. -/
theorem send_request_body_encoding_witness :
    (send_request demoTransport200 demoApplies demoAppConfig emptyStore "form"
        (fun u => u) (some demoBody)).2
      = [build_request demoApplies emptyStore demoFormCfg "https://example.com/api"
          (some (BodyPayload.form "k=v"))]
    ∧ (send_request demoTransport200 demoApplies demoAppConfig emptyStore "json"
        (fun u => u) (some demoBody)).2
      = [build_request demoApplies emptyStore demoJsonCfg "https://example.com/api"
          (some (BodyPayload.json [123, 125]))]
    ∧ send_request demoTransport200 demoApplies demoAppConfig emptyStore "plain"
        (fun u => u) (some demoBody)
      = (POutcome.panic ("not yet implemented: unsupported content type: " ++ "text/plain"), []) :=
  ⟨(send_request_body_encoding demoTransport200 demoApplies demoAppConfig emptyStore
      "form" (fun u => u) demoBody "k=v" [123, 125] demoFormCfg
      [("content-type", "application/x-www-form-urlencoded")]
      "application/x-www-form-urlencoded" { status := 200, headers := [] }
      (by decide) (by rfl) (by decide) (by decide) (by rfl) (by rfl)
      (fun _ => rfl)).1 (by decide),
   (send_request_body_encoding demoTransport200 demoApplies demoAppConfig emptyStore
      "json" (fun u => u) demoBody "k=v" [123, 125] demoJsonCfg
      [("content-type", "application/json; charset=utf-8")]
      "application/json; charset=utf-8" { status := 200, headers := [] }
      (by decide) (by rfl) (by decide) (by decide) (by rfl) (by rfl)
      (fun _ => rfl)).2.1 (by decide) (by decide),
   (send_request_body_encoding demoTransport200 demoApplies demoAppConfig emptyStore
      "plain" (fun u => u) demoBody "k=v" [123, 125] demoPlainCfg
      [("content-type", "text/plain")] "text/plain" { status := 200, headers := [] }
      (by decide) (by rfl) (by decide) (by decide) (by rfl) (by rfl)
      (fun _ => rfl)).2.2 (by decide) (by decide)⟩

/-! ## YoudaoClient bulk word listing (src/client/youdao_client.rs)

`get_words_total` (lines 128-147) probes with `limit=1&offset=0` and reads
`data.total` from the decoded `ResponseResult<Page<WordItem>>`.
`get_words` (lines 154-196) re-checks the login predicate, fetches the
total, then pages with fixed `limit = 1000` and offsets `0, 1000, 2000, …`
for `ceil(total / 1000)` pages, concatenates the `item_list`s in order and
returns them iff the concatenated length equals the reported total.

`fetch limit offset` is the oracle for one `send_request_nobody` with the
`get-words` template and URL suffix `?limit={limit}&offset={offset}`,
composed with the JSON decoding of the response body; the trace component
lists the `(limit, offset)` pairs fetched, in order.  The page count in the
source is `(total as f64 / 1000 as f64).ceil() as usize`, which equals
exact ceiling division for every total below 2^52 (far beyond any realistic
word-book size); it is embedded as exact ceiling division. -/

structure Page (α : Type) where
  total : Nat
  item_list : List α
  deriving Repr, DecidableEq

structure RespResult (α : Type) where
  code : Int
  msg : String
  data : α
  deriving Repr, DecidableEq

/-- Ceiling division on naturals. -/
def ceilDiv (a b : Nat) : Nat :=
  (a + b - 1) / b

/-- `YoudaoClient::get_words_total` (youdao_client.rs lines 128-147). -/
def get_words_total {α : Type} (hasLogged : Bool)
    (fetch : Nat → Nat → Except String (RespResult (Page α))) :
    Except String Nat × List (Nat × Nat) :=
  if !hasLogged then (Except.error "not logged in", [])
  else
    match fetch 1 0 with
    | Except.error e => (Except.error e, [(1, 0)])
    | Except.ok r => (Except.ok r.data.total, [(1, 0)])

/-- The page loop of `get_words` (youdao_client.rs lines 165-189) over the
list of page numbers, propagating the first failure. -/
def fetch_pages {α : Type}
    (fetch : Nat → Nat → Except String (RespResult (Page α))) :
    List Nat → Except String (List α) × List (Nat × Nat)
  | [] => (Except.ok [], [])
  | n :: ns =>
    match fetch 1000 (1000 * n) with
    | Except.error e => (Except.error e, [(1000, 1000 * n)])
    | Except.ok r =>
      match fetch_pages fetch ns with
      | (Except.ok rest, tr) =>
        (Except.ok (r.data.item_list ++ rest), (1000, 1000 * n) :: tr)
      | (Except.error e, tr) => (Except.error e, (1000, 1000 * n) :: tr)

/-- `YoudaoClient::get_words` (youdao_client.rs lines 154-196). -/
def get_words {α : Type} (hasLogged : Bool)
    (fetch : Nat → Nat → Except String (RespResult (Page α))) :
    Except String (List α) × List (Nat × Nat) :=
  if !hasLogged then (Except.error "not logged in", [])
  else
    match get_words_total hasLogged fetch with
    | (Except.error e, tr) => (Except.error e, tr)
    | (Except.ok total, tr) =>
      let numbers := ceilDiv total 1000
      match fetch_pages fetch (List.range numbers) with
      | (Except.error e, tr2) => (Except.error e, tr ++ tr2)
      | (Except.ok words, tr2) =>
        if words.length == total then
          (Except.ok words, tr ++ tr2)
        else
          (Except.error ("The number of words obtained is not the same as the total number! len: "
              ++ toString words.length ++ ", total: " ++ toString total), tr ++ tr2)

theorem fetch_pages_all_ok {α : Type}
    (fetch : Nat → Nat → Except String (RespResult (Page α)))
    (pages : Nat → RespResult (Page α)) :
    ∀ ns : List Nat, (∀ n ∈ ns, fetch 1000 (1000 * n) = Except.ok (pages n)) →
      fetch_pages fetch ns
        = (Except.ok ((ns.map (fun n => (pages n).data.item_list)).flatten),
           ns.map (fun n => (1000, 1000 * n))) := by
  intro ns
  induction ns with
  | nil => intro _; simp [fetch_pages]
  | cons n ns ih =>
    intro h
    have hn : fetch 1000 (1000 * n) = Except.ok (pages n) := h n (by simp)
    have hrest := ih (fun m hm => h m (by simp [hm]))
    simp [fetch_pages, hn, hrest]

/-- C2: for a logged-in client, if the one-item probe (`limit=1, offset=0`)
reports `total` and every page fetch with `limit=1000` succeeds, then
`get_words` issues exactly the probe followed by `ceil(total / 1000)` page
requests at offsets `0, 1000, 2000, …` in order, and returns the
concatenation of the pages iff its length equals the reported total —
otherwise the count-mismatch error carrying both numbers, never the
partial data. -/
theorem get_words_pagination {α : Type}
    (fetch : Nat → Nat → Except String (RespResult (Page α)))
    (r0 : RespResult (Page α)) (pages : Nat → RespResult (Page α))
    (h0 : fetch 1 0 = Except.ok r0)
    (hp : ∀ n, n < ceilDiv r0.data.total 1000 →
      fetch 1000 (1000 * n) = Except.ok (pages n)) :
    (get_words true fetch).2
      = (1, 0) :: (List.range (ceilDiv r0.data.total 1000)).map (fun n => (1000, 1000 * n))
    ∧ get_words true fetch
      = if (((List.range (ceilDiv r0.data.total 1000)).map
              (fun n => (pages n).data.item_list)).flatten).length = r0.data.total
        then (Except.ok (((List.range (ceilDiv r0.data.total 1000)).map
              (fun n => (pages n).data.item_list)).flatten),
              (1, 0) :: (List.range (ceilDiv r0.data.total 1000)).map (fun n => (1000, 1000 * n)))
        else (Except.error ("The number of words obtained is not the same as the total number! len: "
              ++ toString (((List.range (ceilDiv r0.data.total 1000)).map
                  (fun n => (pages n).data.item_list)).flatten).length
              ++ ", total: " ++ toString r0.data.total),
              (1, 0) :: (List.range (ceilDiv r0.data.total 1000)).map (fun n => (1000, 1000 * n))) := by
  have hfp := fetch_pages_all_ok fetch pages (List.range (ceilDiv r0.data.total 1000))
    (fun n hn => hp n (List.mem_range.mp hn))
  have hrun : get_words true fetch
      = if (((List.range (ceilDiv r0.data.total 1000)).map
              (fun n => (pages n).data.item_list)).flatten).length = r0.data.total
        then (Except.ok (((List.range (ceilDiv r0.data.total 1000)).map
              (fun n => (pages n).data.item_list)).flatten),
              (1, 0) :: (List.range (ceilDiv r0.data.total 1000)).map (fun n => (1000, 1000 * n)))
        else (Except.error ("The number of words obtained is not the same as the total number! len: "
              ++ toString (((List.range (ceilDiv r0.data.total 1000)).map
                  (fun n => (pages n).data.item_list)).flatten).length
              ++ ", total: " ++ toString r0.data.total),
              (1, 0) :: (List.range (ceilDiv r0.data.total 1000)).map (fun n => (1000, 1000 * n))) := by
    simp only [get_words, get_words_total, Bool.not_true, Bool.false_eq_true, if_false,
      h0, hfp, beq_iff_eq, List.singleton_append]
  refine ⟨?_, hrun⟩
  rw [hrun]
  by_cases hlen : (((List.range (ceilDiv r0.data.total 1000)).map
      (fun n => (pages n).data.item_list)).flatten).length = r0.data.total
  · rw [if_pos hlen]
  · rw [if_neg hlen]

/-- Concrete fetch oracle for the C2 witness: the probe reports a total of
3; the single page at offset 0 carries the 3 items. -/
def wordsFetchDemo : Nat → Nat → Except String (RespResult (Page Nat)) :=
  fun limit offset =>
    if limit == 1 then Except.ok { code := 0, msg := "", data := { total := 3, item_list := [7] } }
    else if offset == 0 then
      Except.ok { code := 0, msg := "", data := { total := 3, item_list := [1, 2, 3] } }
    else Except.error "no such page"

/-- Witness for C2: with a reported total of 3, exactly one page request at
offset 0 follows the probe and the three items come back whole. -/
theorem get_words_pagination_witness :
    (get_words true wordsFetchDemo).2 = [(1, 0), (1000, 0)]
    ∧ get_words true wordsFetchDemo = (Except.ok [1, 2, 3], [(1, 0), (1000, 0)]) := by
  have h := get_words_pagination wordsFetchDemo
    { code := 0, msg := "", data := { total := 3, item_list := [7] } }
    (fun _ => { code := 0, msg := "", data := { total := 3, item_list := [1, 2, 3] } })
    (by rfl)
    (by
      intro n hn
      have hn0 : n = 0 := by simpa [ceilDiv] using hn
      subst hn0
      rfl)
  refine ⟨by simpa using h.1, ?_⟩
  have h2 := h.2
  simpa [ceilDiv] using h2

/-! ## The interactive upload workflow (src/main.rs, MaimemoApp)

`upload_notepad` (lines 173-211) checks the login predicate, builds the
record to submit via `get_uploaded_notepad` (lines 241-264), then loops:
each attempt requests a *fresh* challenge artifact
(`MaimemoClient::refresh_captcha`, a new cache-busted request per call),
renders it, reads one operator line as the CAPTCHA solution and submits
(`save_notepad`); on rejection it reads one confirmation line — `y` retries
with a new artifact, anything else aborts; on success the first local
record with the given id is replaced by the submitted record.

Oracles: `refresh k` is the k-th `refresh_captcha` call (so the call index
counts the artifacts requested — a reused artifact would mean two attempts
with the same index); `imageLoad` is `image::load_from_memory`
(`viuer::print`, pure terminal output, is taken as succeeding); `submit k
np c` is the `save_notepad` round of attempt `k` with record `np` and typed
solution `c`.  All stdin reads (CAPTCHA solutions and confirmations) come
from one line list, consumed left to right; `Utc::now()` is the `timeStr`
argument. -/

structure MNotepad where
  is_private : Nat
  notepad_id : String
  title : String
  brief : String
  created_time : Option String
  updated_time : Option String
  contents : Option String
  deriving Repr, DecidableEq

/-- `MaimemoApp::get_uploaded_notepad` (main.rs lines 241-264): locate the
local record by id (absent id is a typed error), then
`notepad.get_contents_mut().unwrap()` — a panic when the record exists but
its contents field is `None` — then apply the edit policy (overwrite or
append, optional timestamp marker) and append every stdin line plus a
newline. -/
def get_uploaded_notepad (notepads : List MNotepad) (notepad_id : String)
    (is_appending timestamp : Bool) (timeStr : String) (contentLines : List String) :
    POutcome MNotepad :=
  match notepads.find? (fun n => n.notepad_id == notepad_id) with
  | none => POutcome.err ("not found notepad_id: " ++ notepad_id)
  | some np =>
    match np.contents with
    | none => POutcome.panic "called Option::unwrap on a None value"
    | some c0 =>
      let c1 := if !is_appending then "" else c0
      let c2 := if timestamp then c1 ++ "\n\n# " ++ timeStr ++ " Auto insert\n" else c1
      let c3 := contentLines.foldl (fun acc l => acc ++ l ++ "\n") c2
      POutcome.ok { np with contents := some c3 }

/-- C10: when the local record with the given id exists but its `contents`
field is `None`, `get_uploaded_notepad` (and with it `upload_notepad`)
panics on `unwrap` instead of returning a typed error — although a missing
record id is reported as the typed `not found notepad_id` error. -/
theorem get_uploaded_notepad_contents_none_panics
    (notepads : List MNotepad) (notepad_id : String)
    (is_appending timestamp : Bool) (timeStr : String) (contentLines : List String) :
    (∀ np, notepads.find? (fun n => n.notepad_id == notepad_id) = some np →
      np.contents = none →
      get_uploaded_notepad notepads notepad_id is_appending timestamp timeStr contentLines
        = POutcome.panic "called Option::unwrap on a None value")
    ∧ (notepads.find? (fun n => n.notepad_id == notepad_id) = none →
      get_uploaded_notepad notepads notepad_id is_appending timestamp timeStr contentLines
        = POutcome.err ("not found notepad_id: " ++ notepad_id)) := by
  constructor
  · intro np hfind hc
    simp [get_uploaded_notepad, hfind, hc]
  · intro hfind
    simp [get_uploaded_notepad, hfind]

/-- A local record whose contents were never fetched. -/
def npNoContents : MNotepad :=
  { is_private := 1, notepad_id := "42", title := "t", brief := "b"
    created_time := none, updated_time := none, contents := none }

/-- Witness for C10: the record `42` exists with `contents = none` and the
edit step panics; the unknown id `43` gets the typed error instead. -/
theorem get_uploaded_notepad_contents_none_panics_witness :
    get_uploaded_notepad [npNoContents] "42" false false "" []
      = POutcome.panic "called Option::unwrap on a None value"
    ∧ get_uploaded_notepad [npNoContents] "43" false false "" []
      = POutcome.err ("not found notepad_id: " ++ "43") :=
  ⟨(get_uploaded_notepad_contents_none_panics [npNoContents] "42" false false "" []).1
      npNoContents (by rfl) (by rfl),
   (get_uploaded_notepad_contents_none_panics [npNoContents] "43" false false "" []).2
      (by rfl)⟩

/-- The oracles of one upload attempt. -/
structure UploadEnv where
  refresh : Nat → Except String (List Nat)
  imageLoad : List Nat → Except String Unit
  submit : Nat → MNotepad → String → Except String Unit

/-- One upload attempt, `MaimemoApp::upload` +
`read_captcha_from_stdin` (main.rs lines 213-239): request challenge
artifact number `k` (`refresh_captcha`), decode it
(`image::load_from_memory`; `viuer::print`, pure terminal output, always
succeeds), read one stdin line as the CAPTCHA solution (end of input is the
`read line error`), and submit via `save_notepad`.  Returns the attempt's
outcome and the stdin left unconsumed. -/
def attempt_result (env : UploadEnv) (np : MNotepad) (k : Nat) (stdin : List String) :
    Except String Unit × List String :=
  match env.refresh k with
  | Except.error e => (Except.error e, stdin)
  | Except.ok bytes =>
    match env.imageLoad bytes with
    | Except.error e => (Except.error e, stdin)
    | Except.ok _ =>
      match stdin with
      | [] => (Except.error "read line error", [])
      | captcha :: rest => (env.submit k np captcha, rest)

theorem attempt_result_length_le (env : UploadEnv) (np : MNotepad) (k : Nat)
    (stdin : List String) :
    (attempt_result env np k stdin).2.length ≤ stdin.length := by
  cases h1 : env.refresh k with
  | error e => simp [attempt_result, h1]
  | ok bytes =>
    cases h2 : env.imageLoad bytes with
    | error e => simp [attempt_result, h1, h2]
    | ok u =>
      cases stdin with
      | nil => simp [attempt_result, h1, h2]
      | cons c r => simp [attempt_result, h1, h2]

/-- The retry loop of `upload_notepad` (main.rs lines 186-198): run one
attempt; on rejection read one confirmation line (`y` = retry with attempt
index `k + 1`, end of input = `line is none`, anything else = `User confirm
exit`).  Returns the outcome and the number of challenge artifacts
requested (one per attempt, at call indices `0, 1, …`). -/
def upload_loop (env : UploadEnv) (np : MNotepad) :
    Nat → List String → Except String Unit × Nat
  | k, stdin =>
    match h : attempt_result env np k stdin with
    | (Except.ok _, _) => (Except.ok (), k + 1)
    | (Except.error _, stdin') =>
      match stdin' with
      | [] => (Except.error "line is none", k + 1)
      | line :: rest =>
        if line == "y" then upload_loop env np (k + 1) rest
        else (Except.error ("User confirm exit: " ++ line), k + 1)
  termination_by _ stdin => stdin.length
  decreasing_by
    have hle := attempt_result_length_le env np k stdin
    rw [h] at hle
    simp only [List.length_cons] at hle
    omega

/-- `self.notepads.iter_mut().find(..).map(|n| *n = new_notepad)`
(main.rs lines 199-207): replace the first record with the given id; when
none matches the list stays unchanged (only a warning is logged). -/
def update_first (notepads : List MNotepad) (notepad_id : String) (new : MNotepad) :
    List MNotepad :=
  match notepads with
  | [] => []
  | n :: ns =>
    if n.notepad_id == notepad_id then new :: ns
    else n :: update_first ns notepad_id new

/-- `MaimemoApp::upload_notepad` (main.rs lines 173-211).  Returns the
outcome, the number of challenge artifacts requested, and the final local
record list. -/
def upload_notepad (env : UploadEnv) (has_logged : Bool) (notepads : List MNotepad)
    (notepad_id : String) (is_appending timestamp : Bool) (timeStr : String)
    (contentLines : List String) (stdin : List String) :
    POutcome Unit × Nat × List MNotepad :=
  if !has_logged then (POutcome.err "Not logged in", 0, notepads)
  else
    match get_uploaded_notepad notepads notepad_id is_appending timestamp timeStr contentLines with
    | POutcome.panic m => (POutcome.panic m, 0, notepads)
    | POutcome.err e => (POutcome.err e, 0, notepads)
    | POutcome.ok new_notepad =>
      match upload_loop env new_notepad 0 stdin with
      | (Except.error e, n) => (POutcome.err e, n, notepads)
      | (Except.ok _, n) =>
        (POutcome.ok (), n, update_first notepads notepad_id new_notepad)

theorem find_update_first (notepads : List MNotepad) (notepad_id : String) (new : MNotepad)
    (hmem : (notepads.find? (fun n => n.notepad_id == notepad_id)).isSome)
    (hnew : (new.notepad_id == notepad_id) = true) :
    (update_first notepads notepad_id new).find? (fun n => n.notepad_id == notepad_id)
      = some new := by
  induction notepads with
  | nil => simp [List.find?] at hmem
  | cons n ns ih =>
    by_cases h : (n.notepad_id == notepad_id) = true
    · rw [update_first, if_pos h]
      simp only [List.find?, hnew]
    · have hb : (n.notepad_id == notepad_id) = false := by
        simpa using h
      rw [update_first, if_neg h]
      simp only [List.find?, hb] at hmem ⊢
      exact ih hmem

theorem get_uploaded_notepad_ok_id (notepads : List MNotepad) (notepad_id : String)
    (is_appending timestamp : Bool) (timeStr : String) (contentLines : List String)
    (np : MNotepad)
    (h : get_uploaded_notepad notepads notepad_id is_appending timestamp timeStr contentLines
      = POutcome.ok np) :
    (np.notepad_id == notepad_id) = true
    ∧ (notepads.find? (fun n => n.notepad_id == notepad_id)).isSome := by
  unfold get_uploaded_notepad at h
  split at h
  next hfind => simp at h
  next np0 hfind =>
    split at h
    next hc => simp at h
    next c0 hc =>
      simp only [POutcome.ok.injEq] at h
      subst h
      have hp : (np0.notepad_id == notepad_id) = true :=
        @List.find?_some MNotepad (fun n => n.notepad_id == notepad_id) np0 notepads hfind
      exact ⟨hp, by rw [hfind]; rfl⟩

/-- C5: in the interactive upload workflow with operator input
`[c1, y, c2, y, c3, …]`, where the submissions of attempts 0 and 1 are
rejected and attempt 2 succeeds, exactly three challenge artifacts are
requested — the refresh oracle is called at the three distinct indices
0, 1, 2, one fresh artifact per attempt — and after success the local
record with the given id holds exactly the submitted record `np` (whose
contents are what was submitted). -/
theorem upload_notepad_retry_twice_then_success
    (env : UploadEnv) (notepads : List MNotepad) (notepad_id : String)
    (is_appending timestamp : Bool) (timeStr : String) (contentLines : List String)
    (np : MNotepad) (b0 b1 b2 : List Nat) (c1 c2 c3 : String) (e1 e2 : String)
    (rest : List String)
    (hget : get_uploaded_notepad notepads notepad_id is_appending timestamp timeStr contentLines
      = POutcome.ok np)
    (hr0 : env.refresh 0 = Except.ok b0) (hr1 : env.refresh 1 = Except.ok b1)
    (hr2 : env.refresh 2 = Except.ok b2)
    (hi0 : env.imageLoad b0 = Except.ok ()) (hi1 : env.imageLoad b1 = Except.ok ())
    (hi2 : env.imageLoad b2 = Except.ok ())
    (hs0 : env.submit 0 np c1 = Except.error e1)
    (hs1 : env.submit 1 np c2 = Except.error e2)
    (hs2 : env.submit 2 np c3 = Except.ok ()) :
    upload_notepad env true notepads notepad_id is_appending timestamp timeStr contentLines
        (c1 :: "y" :: c2 :: "y" :: c3 :: rest)
      = (POutcome.ok (), 3, update_first notepads notepad_id np)
    ∧ (update_first notepads notepad_id np).find? (fun n => n.notepad_id == notepad_id)
      = some np := by
  have hid := get_uploaded_notepad_ok_id notepads notepad_id is_appending timestamp timeStr
    contentLines np hget
  have ha0 : attempt_result env np 0 (c1 :: "y" :: c2 :: "y" :: c3 :: rest)
      = (Except.error e1, "y" :: c2 :: "y" :: c3 :: rest) := by
    unfold attempt_result
    rw [hr0]
    simp [hi0, hs0]
  have ha1 : attempt_result env np 1 (c2 :: "y" :: c3 :: rest)
      = (Except.error e2, "y" :: c3 :: rest) := by
    unfold attempt_result
    rw [hr1]
    simp [hi1, hs1]
  have ha2 : attempt_result env np 2 (c3 :: rest) = (Except.ok (), rest) := by
    unfold attempt_result
    rw [hr2]
    simp [hi2, hs2]
  have step0 : upload_loop env np 0 (c1 :: "y" :: c2 :: "y" :: c3 :: rest)
      = upload_loop env np 1 (c2 :: "y" :: c3 :: rest) := by
    rw [upload_loop]
    split
    · rename_i h
      rw [ha0] at h
      simp at h
    · rename_i h
      rw [ha0] at h
      simp only [Prod.mk.injEq] at h
      obtain ⟨he, hs⟩ := h
      subst hs
      simp
  have step1 : upload_loop env np 1 (c2 :: "y" :: c3 :: rest)
      = upload_loop env np 2 (c3 :: rest) := by
    rw [upload_loop]
    split
    · rename_i h
      rw [ha1] at h
      simp at h
    · rename_i h
      rw [ha1] at h
      simp only [Prod.mk.injEq] at h
      obtain ⟨he, hs⟩ := h
      subst hs
      simp
  have step2 : upload_loop env np 2 (c3 :: rest) = (Except.ok (), 3) := by
    rw [upload_loop]
    split
    · rfl
    · rename_i h
      rw [ha2] at h
      simp at h
  have hloop : upload_loop env np 0 (c1 :: "y" :: c2 :: "y" :: c3 :: rest)
      = (Except.ok (), 3) := by
    rw [step0, step1, step2]
  constructor
  · simp [upload_notepad, hget, hloop]
  · exact find_update_first notepads notepad_id np hid.2 hid.1

/-- Oracles for the C5 witness: attempt 2 with solution `c3` is accepted,
everything else is rejected; artifact `k` is the byte string `[k]`. -/
def demoUploadEnv : UploadEnv :=
  { refresh := fun k => Except.ok [k]
    imageLoad := fun _ => Except.ok ()
    submit := fun k _ c =>
      if k == 2 && c == "c3" then Except.ok () else Except.error "captcha error" }

/-- The local record the C5 witness edits. -/
def demoNotepad : MNotepad :=
  { is_private := 1, notepad_id := "42", title := "t", brief := "b"
    created_time := none, updated_time := none, contents := some "old\n" }

/-- The record the C5 witness submits: contents overwritten with the two
stdin lines. -/
def demoUploaded : MNotepad :=
  { demoNotepad with contents := some "w1\nw2\n" }

/-- Witness for C5: two rejections answered with `y`, success on the third
attempt; three artifacts requested, and the local record `42` now holds the
submitted contents. -/
theorem upload_notepad_retry_twice_then_success_witness :
    upload_notepad demoUploadEnv true [demoNotepad] "42" false false "2020-01-01 00:00:00"
        ["w1", "w2"] ["c1", "y", "c2", "y", "c3"]
      = (POutcome.ok (), 3, update_first [demoNotepad] "42" demoUploaded)
    ∧ (update_first [demoNotepad] "42" demoUploaded).find? (fun n => n.notepad_id == "42")
      = some demoUploaded :=
  upload_notepad_retry_twice_then_success demoUploadEnv [demoNotepad] "42" false false
    "2020-01-01 00:00:00" ["w1", "w2"] demoUploaded [0] [1] [2] "c1" "c2" "c3"
    "captcha error" "captcha error" []
    (by rfl) (by rfl) (by rfl) (by rfl) (by rfl) (by rfl) (by rfl)
    (by rfl) (by rfl) (by rfl)

end DictModel
